import Mathlib

/-!
# Bubble plugin handlers: FullSync and RecordUpdate

A shallow embedding of the two server-side plugin handlers
(BubblePluginCode/FullSync.js and BubblePluginCode/RecordUpdate.js).

Each handler is an async function of properties and context.  It reads a few
properties, issues one axios.post inside a try block and either ignores the
response (FullSync) or reduces it to a needs_sync field (RecordUpdate).

The embedding keeps the dynamic typing of the source: inputs are arbitrary
values, a property read on undefined or null throws a TypeError, and calling
something that is not a function throws a TypeError.  An async function that
throws is a rejected promise; one that returns is a resolved promise.
-/

namespace BubblePlugin

/-! ## Values -/

/-- Values the handlers can be handed or can build.  A number is carried by its
canonical decimal text, which is all the handlers can observe of it.  A host
function takes one string argument (the only call in the source is
get("_id")) and, once awaited, either yields a value or throws. -/
inductive JsVal where
  | undefined : JsVal
  | null : JsVal
  | bool (b : Bool) : JsVal
  | num (text : String) : JsVal
  | str (s : String) : JsVal
  | typeError : JsVal
  | obj (props : List (String × JsVal)) : JsVal
  | fn (call : String → Except JsVal JsVal) : JsVal

/-- Outcome of evaluating an expression: a value, or a thrown value. -/
abbrev Js (α : Type) := Except JsVal α

/-- Property read v.name or v[name].  Reading from undefined or null throws a
TypeError; an object yields its own property or undefined; every other value
yields undefined.  Built-in prototype members (length of a string, message of
an error) are outside the model: no name read by the handlers is one. -/
def getProp (v : JsVal) (name : String) : Js JsVal :=
  match v with
  | .undefined => .error .typeError
  | .null => .error .typeError
  | .obj props => .ok ((props.lookup name).getD .undefined)
  | _ => .ok .undefined

/-- Awaited method call recv.name(arg): read the property, then call it.  A
property that is not a function throws a TypeError. -/
def callMethod (recv : JsVal) (name : String) (arg : String) : Js JsVal :=
  match getProp recv name with
  | .error e => .error e
  | .ok (.fn call) => call arg
  | .ok _ => .error .typeError

/-- Chained property read v.a.b.c, left to right. -/
def getPath (v : JsVal) (names : List String) : Js JsVal :=
  match names with
  | [] => .ok v
  | name :: rest =>
    match getProp v name with
    | .error e => .error e
    | .ok w => getPath w rest

/-- Awaited identifier read properties.name.get("_id"), for name one of
record_before and record_after. -/
def recordId (properties : JsVal) (name : String) : Js JsVal :=
  match getProp properties name with
  | .error e => .error e
  | .ok record => callMethod record "get" "_id"

/-- Strict comparison v === null. -/
def strictEqNull (v : JsVal) : Bool :=
  match v with
  | .null => true
  | _ => false

/-! ## The outside world -/

/-- One call axios.post(url, data, config). -/
structure Request where
  url : String
  data : JsVal
  config : JsVal

/-- External collaborators of a handler.  The field post is the behaviour of
axios.post together with the endpoint: the awaited call either yields a
response value or throws (network failure, non-2xx status, ...).  The field
objectToString is the engine's string conversion of a value that is not a
primitive, which runs user-visible code and may throw. -/
structure Runtime where
  post : Request → Js JsVal
  objectToString : JsVal → Js String

/-- String conversion performed by a template literal with one hole. -/
def toStr (rt : Runtime) (v : JsVal) : Js String :=
  match v with
  | .undefined => .ok "undefined"
  | .null => .ok "null"
  | .bool true => .ok "true"
  | .bool false => .ok "false"
  | .num text => .ok text
  | .str s => .ok s
  | w => rt.objectToString w

/-- What an invocation did: how its promise settled (ok is resolved, error is
rejected) and the axios.post calls it issued, in order. -/
structure Run where
  outcome : Js JsVal
  posts : List Request

/-- Computations of a handler body: they may throw and they log each
axios.post call. -/
def Eff (α : Type) : Type := List Request → Js α × List Request

/-- Return a value without any effect. -/
def Eff.pure {α : Type} (a : α) : Eff α := fun log => (.ok a, log)

/-- Sequencing: a throw in the first computation skips the second. -/
def Eff.bind {α β : Type} (m : Eff α) (f : α → Eff β) : Eff β := fun log =>
  match m log with
  | (.ok a, log1) => f a log1
  | (.error e, log1) => (.error e, log1)

instance : Monad Eff where
  pure := Eff.pure
  bind := Eff.bind

/-- An effect-free expression inside a handler body. -/
def Eff.eval {α : Type} (x : Js α) : Eff α := fun log => (x, log)

/-- Block try body catch (error) handler. -/
def Eff.tryCatch {α : Type} (body : Eff α) (handler : JsVal → Eff α) : Eff α := fun log =>
  match body log with
  | (.ok a, log1) => (.ok a, log1)
  | (.error e, log1) => handler e log1

/-- Awaited call axios.post(url, data, config): logged, then settled by the
runtime. -/
def axiosPost (rt : Runtime) (url : String) (data config : JsVal) : Eff JsVal := fun log =>
  (rt.post ⟨url, data, config⟩, log ++ [⟨url, data, config⟩])

/-- Run a handler body from an empty log. -/
def Eff.run (m : Eff JsVal) : Run :=
  ⟨(m []).1, (m []).2⟩

/-! ## FullSync.js -/

/-- The handler of FullSync.js. -/
def FullSync (rt : Runtime) (properties context : JsVal) : Eff JsVal := do
  let app_version ← Eff.eval (getPath properties ["one_record", "_call_metadata", "app_version"])
  let app_type ← Eff.eval (getProp properties "app_type")
  let requestBody := JsVal.obj [("app_version", app_version), ("app_type", app_type)]
  let azureKey ← Eff.eval (getPath context ["keys", "Azure Key"])
  let headers := JsVal.obj [("x-functions-key", azureKey)]
  Eff.tryCatch
    (do
      let target ← Eff.eval (getPath context ["keys", "Full Table Sync URL"])
      let url ← Eff.eval (toStr rt target)
      let _ ← axiosPost rt url requestBody (JsVal.obj [("headers", headers)])
      pure JsVal.undefined)
    (fun _ => pure JsVal.undefined)

/-! ## RecordUpdate.js -/

/-- Record action and record id chosen from the two awaited identifiers: the
if / else if / else chain of the handler, as the pair (record_action,
record_id). -/
def classify (rb_id ra_id : JsVal) : String × JsVal :=
  if strictEqNull rb_id then ("INSERT", ra_id)
  else if strictEqNull ra_id then ("DELETE", rb_id)
  else ("UPDATE", ra_id)

/-- The handler of RecordUpdate.js. -/
def RecordUpdate (rt : Runtime) (properties context : JsVal) : Eff JsVal := do
  let app_version ← Eff.eval (getPath properties ["record_before", "_call_metadata", "app_version"])
  let rb_id ← Eff.eval (recordId properties "record_before")
  let ra_id ← Eff.eval (recordId properties "record_after")
  let app_type ← Eff.eval (getProp properties "app_type")
  let requestBody := JsVal.obj
    [("app_version", app_version), ("app_type", app_type),
     ("record_id", (classify rb_id ra_id).2),
     ("record_action", JsVal.str (classify rb_id ra_id).1)]
  let azureKey ← Eff.eval (getPath context ["keys", "Azure Key"])
  let headers := JsVal.obj [("x-functions-key", azureKey)]
  Eff.tryCatch
    (do
      let target ← Eff.eval (getPath context ["keys", "Record Update Function URL"])
      let url ← Eff.eval (toStr rt target)
      let resp ← axiosPost rt url requestBody (JsVal.obj [("headers", headers)])
      let needs_full_sync ← Eff.eval (getPath resp ["data", "needs_full_sync"])
      pure (JsVal.obj [("needs_sync", needs_full_sync)]))
    (fun _ => pure (JsVal.obj [("needs_sync", JsVal.bool false)]))

/-! ## Normal forms used by the proofs -/

/-- Request sent by RecordUpdate once all its reads have succeeded. -/
def updateRequest (url : String) (app_version app_type rb_id ra_id azureKey : JsVal) : Request :=
  ⟨url,
   .obj [("app_version", app_version), ("app_type", app_type),
         ("record_id", (classify rb_id ra_id).2),
         ("record_action", .str (classify rb_id ra_id).1)],
   .obj [("headers", .obj [("x-functions-key", azureKey)])]⟩

/-- Value of needs_sync after the POST has settled. -/
def settleUpdate (r : Js JsVal) : JsVal :=
  match r with
  | .error _ => .bool false
  | .ok resp =>
    match getPath resp ["data", "needs_full_sync"] with
    | .error _ => .bool false
    | .ok v => v

/-- The part of RecordUpdate inside try, as a run. -/
def updateTry (rt : Runtime) (context app_version app_type rb_id ra_id azureKey : JsVal) : Run :=
  match getPath context ["keys", "Record Update Function URL"] with
  | .error _ => ⟨.ok (.obj [("needs_sync", .bool false)]), []⟩
  | .ok target =>
    match toStr rt target with
    | .error _ => ⟨.ok (.obj [("needs_sync", .bool false)]), []⟩
    | .ok url =>
      ⟨.ok (.obj [("needs_sync",
          settleUpdate (rt.post (updateRequest url app_version app_type rb_id ra_id azureKey)))]),
       [updateRequest url app_version app_type rb_id ra_id azureKey]⟩

/-! ## Sample inputs -/

/-- A record snapshot: call metadata with an app version, and a get accessor
resolving to the given identifier for _id and to null for any other field. -/
def sampleRecord (app_version : String) (id : JsVal) : JsVal :=
  .obj [("_call_metadata", .obj [("app_version", .str app_version)]),
        ("get", .fn (fun field => if field = "_id" then .ok id else .ok .null))]

/-- Event properties of a record change with the two given identifiers. -/
def sampleUpdate (rb_id ra_id : JsVal) : JsVal :=
  .obj [("app_type", .str "foo"),
        ("record_before", sampleRecord "1.2" rb_id),
        ("record_after", sampleRecord "1.3" ra_id)]

/-- Event properties of a full sync request. -/
def sampleSync : JsVal :=
  .obj [("app_type", .str "foo"),
        ("one_record", .obj [("_call_metadata", .obj [("app_version", .str "1.2")])])]

/-- A context whose secrets map holds the API key and both URLs. -/
def sampleContext : JsVal :=
  .obj [("keys", .obj [("Azure Key", .str "secret"),
                       ("Full Table Sync URL", .str "https://f.example/full"),
                       ("Record Update Function URL", .str "https://f.example/record")])]

/-- A runtime whose endpoint answers every POST with the given response body. -/
def respondingRuntime (data : JsVal) : Runtime :=
  ⟨fun _ => .ok (.obj [("status", .num "200"), ("data", data)]),
   fun _ => .ok "[object Object]"⟩

/-- A runtime whose every POST fails. -/
def failingRuntime : Runtime :=
  ⟨fun _ => .error (.str "ECONNREFUSED"), fun _ => .ok "[object Object]"⟩

/-- The request RecordUpdate sends on the sample inputs. -/
def sampleUpdateRequest (record_action : String) (record_id : JsVal) : Request :=
  ⟨"https://f.example/record",
   .obj [("app_version", .str "1.2"), ("app_type", .str "foo"),
         ("record_id", record_id), ("record_action", .str record_action)],
   .obj [("headers", .obj [("x-functions-key", .str "secret")])]⟩

/-! ## Unfolding the handler bodies -/

theorem Eff.eval_ok_bind {α β : Type} (a : α) (f : α → Eff β) :
    (Eff.eval (Except.ok a) >>= f) = f a := rfl

theorem RecordUpdate_run (rt : Runtime) (properties context : JsVal) :
    (RecordUpdate rt properties context).run =
      match getPath properties ["record_before", "_call_metadata", "app_version"] with
      | .error e => ⟨.error e, []⟩
      | .ok app_version =>
        match recordId properties "record_before" with
        | .error e => ⟨.error e, []⟩
        | .ok rb_id =>
          match recordId properties "record_after" with
          | .error e => ⟨.error e, []⟩
          | .ok ra_id =>
            match getProp properties "app_type" with
            | .error e => ⟨.error e, []⟩
            | .ok app_type =>
              match getPath context ["keys", "Azure Key"] with
              | .error e => ⟨.error e, []⟩
              | .ok azureKey =>
                updateTry rt context app_version app_type rb_id ra_id azureKey := by
  unfold RecordUpdate
  cases h1 : getPath properties ["record_before", "_call_metadata", "app_version"] with
  | error e => rfl
  | ok av =>
    cases h2 : recordId properties "record_before" with
    | error e => rfl
    | ok rb =>
      cases h3 : recordId properties "record_after" with
      | error e => rfl
      | ok ra =>
        cases h4 : getProp properties "app_type" with
        | error e => rfl
        | ok at1 =>
          cases h5 : getPath context ["keys", "Azure Key"] with
          | error e => rfl
          | ok key =>
            simp only [Eff.eval_ok_bind]
            unfold updateTry
            cases h6 : getPath context ["keys", "Record Update Function URL"] with
            | error e => rfl
            | ok target =>
              simp only [Eff.eval_ok_bind]
              cases h7 : toStr rt target with
              | error e => rfl
              | ok url =>
                simp only [Eff.eval_ok_bind, updateRequest]
                cases h8 : rt.post ⟨url, .obj [("app_version", av), ("app_type", at1),
                    ("record_id", (classify rb ra).2),
                    ("record_action", .str (classify rb ra).1)],
                    .obj [("headers", .obj [("x-functions-key", key)])]⟩ with
                | error e =>
                  simp [Eff.run, Eff.tryCatch, axiosPost, settleUpdate, bind, Eff.bind, h8,
                    pure, Eff.pure]
                | ok resp =>
                  cases h9 : getPath resp ["data", "needs_full_sync"] with
                  | error e =>
                    simp [Eff.run, Eff.tryCatch, axiosPost, settleUpdate, bind, Eff.bind, h8, h9,
                      pure, Eff.pure, Eff.eval]
                  | ok v =>
                    simp [Eff.run, Eff.tryCatch, axiosPost, settleUpdate, bind, Eff.bind, h8, h9,
                      pure, Eff.pure, Eff.eval]

theorem FullSync_run (rt : Runtime) (properties context : JsVal) :
    (FullSync rt properties context).run =
      match getPath properties ["one_record", "_call_metadata", "app_version"] with
      | .error e => ⟨.error e, []⟩
      | .ok app_version =>
        match getProp properties "app_type" with
        | .error e => ⟨.error e, []⟩
        | .ok app_type =>
          match getPath context ["keys", "Azure Key"] with
          | .error e => ⟨.error e, []⟩
          | .ok azureKey =>
            match getPath context ["keys", "Full Table Sync URL"] with
            | .error _ => ⟨.ok .undefined, []⟩
            | .ok target =>
              match toStr rt target with
              | .error _ => ⟨.ok .undefined, []⟩
              | .ok url =>
                ⟨.ok .undefined,
                 [⟨url, .obj [("app_version", app_version), ("app_type", app_type)],
                   .obj [("headers", .obj [("x-functions-key", azureKey)])]⟩]⟩ := by
  unfold FullSync
  cases h1 : getPath properties ["one_record", "_call_metadata", "app_version"] with
  | error e => rfl
  | ok av =>
    cases h2 : getProp properties "app_type" with
    | error e => rfl
    | ok at1 =>
      cases h3 : getPath context ["keys", "Azure Key"] with
      | error e => rfl
      | ok key =>
        simp only [Eff.eval_ok_bind]
        cases h4 : getPath context ["keys", "Full Table Sync URL"] with
        | error e => rfl
        | ok target =>
          simp only [Eff.eval_ok_bind]
          cases h5 : toStr rt target with
          | error e => rfl
          | ok url =>
            simp only [Eff.eval_ok_bind]
            cases h6 : rt.post ⟨url, .obj [("app_version", av), ("app_type", at1)],
                .obj [("headers", .obj [("x-functions-key", key)])]⟩ with
            | error e =>
              simp [Eff.run, Eff.tryCatch, axiosPost, bind, Eff.bind, h6, pure, Eff.pure]
            | ok resp =>
              simp [Eff.run, Eff.tryCatch, axiosPost, bind, Eff.bind, h6, pure, Eff.pure]

/-- A request logged by RecordUpdate is the only one, it was built from
successful reads, and the promise resolved with the settled needs_sync. -/
theorem RecordUpdate_posted (rt : Runtime) (properties context : JsVal) (r : Request)
    (hr : r ∈ (RecordUpdate rt properties context).run.posts) :
    ∃ url app_version app_type rb_id ra_id azureKey,
      recordId properties "record_before" = .ok rb_id ∧
      recordId properties "record_after" = .ok ra_id ∧
      r = updateRequest url app_version app_type rb_id ra_id azureKey ∧
      (RecordUpdate rt properties context).run.outcome =
        .ok (.obj [("needs_sync", settleUpdate (rt.post r))]) := by
  rw [RecordUpdate_run] at hr ⊢
  cases h1 : getPath properties ["record_before", "_call_metadata", "app_version"] with
  | error e => simp [h1] at hr
  | ok av =>
    cases h2 : recordId properties "record_before" with
    | error e => simp [h1, h2] at hr
    | ok rb =>
      cases h3 : recordId properties "record_after" with
      | error e => simp [h1, h2, h3] at hr
      | ok ra =>
        cases h4 : getProp properties "app_type" with
        | error e => simp [h1, h2, h3, h4] at hr
        | ok at1 =>
          cases h5 : getPath context ["keys", "Azure Key"] with
          | error e => simp [h1, h2, h3, h4, h5] at hr
          | ok key =>
            simp only [h1, h2, h3, h4, h5, updateTry] at hr ⊢
            cases h6 : getPath context ["keys", "Record Update Function URL"] with
            | error e => simp [h6] at hr
            | ok target =>
              cases h7 : toStr rt target with
              | error e => simp [h6, h7] at hr
              | ok url =>
                simp only [h6, h7, List.mem_singleton] at hr ⊢
                exact ⟨url, av, at1, rb, ra, key, rfl, rfl, hr, by rw [hr]⟩

theorem sample_recordId_before (rb_id ra_id : JsVal) :
    recordId (sampleUpdate rb_id ra_id) "record_before" = .ok rb_id := by
  simp [recordId, sampleUpdate, sampleRecord, getProp, callMethod, List.lookup]

theorem sample_recordId_after (rb_id ra_id : JsVal) :
    recordId (sampleUpdate rb_id ra_id) "record_after" = .ok ra_id := by
  simp [recordId, sampleUpdate, sampleRecord, getProp, callMethod, List.lookup]

theorem sample_update_run (rt : Runtime) (rb_id ra_id : JsVal) :
    (RecordUpdate rt (sampleUpdate rb_id ra_id) sampleContext).run =
      ⟨.ok (.obj [("needs_sync", settleUpdate (rt.post
          (sampleUpdateRequest (classify rb_id ra_id).1 (classify rb_id ra_id).2)))]),
       [sampleUpdateRequest (classify rb_id ra_id).1 (classify rb_id ra_id).2]⟩ := by
  rw [RecordUpdate_run, sample_recordId_before, sample_recordId_after]
  simp [sampleUpdate, sampleRecord, sampleContext, getPath, getProp, List.lookup, updateTry,
    toStr, updateRequest, sampleUpdateRequest]

theorem classify_null_after (rb_id : JsVal) (h : rb_id ≠ .null) :
    classify rb_id .null = ("DELETE", rb_id) := by
  cases rb_id <;> first | exact absurd rfl h | rfl

theorem classify_both (rb_id ra_id : JsVal) (hb : rb_id ≠ .null) (ha : ra_id ≠ .null) :
    classify rb_id ra_id = ("UPDATE", ra_id) := by
  cases rb_id <;> first | exact absurd rfl hb | (cases ra_id <;> first | exact absurd rfl ha | rfl)

/-- The record_action and record_id fields of a logged request are the
classification of the two awaited identifiers. -/
theorem RecordUpdate_posted_fields (rt : Runtime) (properties context : JsVal)
    (rb_id ra_id : JsVal)
    (hb : recordId properties "record_before" = .ok rb_id)
    (ha : recordId properties "record_after" = .ok ra_id)
    (r : Request) (hr : r ∈ (RecordUpdate rt properties context).run.posts) :
    getProp r.data "record_action" = .ok (.str (classify rb_id ra_id).1) ∧
      getProp r.data "record_id" = .ok (classify rb_id ra_id).2 := by
  obtain ⟨url, av, at1, rb, ra, key, hb1, ha1, hreq, _⟩ :=
    RecordUpdate_posted rt properties context r hr
  rw [hb] at hb1
  rw [ha] at ha1
  cases hb1
  cases ha1
  subst hreq
  simp [updateRequest, getProp, List.lookup]

/-! ## Record action classification (C3 to C6) -/

/-- C3, as stated, fails.  With both identifiers null the one request posted
carries record_action INSERT and record_id null, neither UPDATE nor the empty
string; with both identifiers undefined it carries UPDATE and record_id
undefined, again not the empty string. -/
theorem RecordUpdate_both_absent_counterexample :
    ((RecordUpdate failingRuntime (sampleUpdate .null .null) sampleContext).run.posts =
        [sampleUpdateRequest "INSERT" .null] ∧
      getProp (sampleUpdateRequest "INSERT" .null).data "record_action" ≠ .ok (.str "UPDATE") ∧
      getProp (sampleUpdateRequest "INSERT" .null).data "record_id" ≠ .ok (.str "")) ∧
    ((RecordUpdate failingRuntime (sampleUpdate .undefined .undefined) sampleContext).run.posts =
        [sampleUpdateRequest "UPDATE" .undefined] ∧
      getProp (sampleUpdateRequest "UPDATE" .undefined).data "record_id" ≠ .ok (.str "")) := by
  refine ⟨⟨?_, ?_, ?_⟩, ?_, ?_⟩
  · rw [sample_update_run]; rfl
  · simp [sampleUpdateRequest, getProp, List.lookup]
  · simp [sampleUpdateRequest, getProp, List.lookup]
  · rw [sample_update_run]; rfl
  · simp [sampleUpdateRequest, getProp, List.lookup]

/-- C3, amended: when the identifiers of record_before and record_after are
both null, every request RecordUpdate posts has record_action INSERT and
record_id null. -/
theorem RecordUpdate_both_null (rt : Runtime) (properties context : JsVal)
    (hb : recordId properties "record_before" = .ok .null)
    (ha : recordId properties "record_after" = .ok .null) :
    ∀ r ∈ (RecordUpdate rt properties context).run.posts,
      getProp r.data "record_action" = .ok (.str "INSERT") ∧
        getProp r.data "record_id" = .ok .null := by
  intro r hr
  exact RecordUpdate_posted_fields rt properties context .null .null hb ha r hr

theorem RecordUpdate_both_null_witness :
    (RecordUpdate failingRuntime (sampleUpdate .null .null) sampleContext).run.posts ≠ [] ∧
    ∀ r ∈ (RecordUpdate failingRuntime (sampleUpdate .null .null) sampleContext).run.posts,
      getProp r.data "record_action" = .ok (.str "INSERT") ∧
        getProp r.data "record_id" = .ok .null :=
  ⟨by rw [sample_update_run]; simp,
   RecordUpdate_both_null failingRuntime (sampleUpdate .null .null) sampleContext
     (sample_recordId_before .null .null) (sample_recordId_after .null .null)⟩

/-- C4, as stated, fails.  When the identifier of record_before is absent as
undefined rather than null, the test rb_id === null is false: with
record_after carrying identifier X the one request posted has record_action
UPDATE, not INSERT. -/
theorem RecordUpdate_insert_counterexample :
    (RecordUpdate failingRuntime (sampleUpdate .undefined (.str "X")) sampleContext).run.posts =
        [sampleUpdateRequest "UPDATE" (.str "X")] ∧
      getProp (sampleUpdateRequest "UPDATE" (.str "X")).data "record_action" =
        .ok (.str "UPDATE") ∧
      getProp (sampleUpdateRequest "UPDATE" (.str "X")).data "record_action" ≠
        .ok (.str "INSERT") := by
  refine ⟨?_, ?_, ?_⟩
  · rw [sample_update_run]; rfl
  · simp [sampleUpdateRequest, getProp, List.lookup]
  · simp [sampleUpdateRequest, getProp, List.lookup]

/-- C4, amended: when the identifier of record_before is null (get("_id")
resolves to null) and record_after has identifier X, every request
RecordUpdate posts has record_action INSERT and record_id X. -/
theorem RecordUpdate_insert (rt : Runtime) (properties context X : JsVal)
    (hb : recordId properties "record_before" = .ok .null)
    (ha : recordId properties "record_after" = .ok X) :
    ∀ r ∈ (RecordUpdate rt properties context).run.posts,
      getProp r.data "record_action" = .ok (.str "INSERT") ∧
        getProp r.data "record_id" = .ok X := by
  intro r hr
  exact RecordUpdate_posted_fields rt properties context .null X hb ha r hr

theorem RecordUpdate_insert_witness :
    (RecordUpdate failingRuntime (sampleUpdate .null (.str "X")) sampleContext).run.posts ≠ [] ∧
    ∀ r ∈ (RecordUpdate failingRuntime (sampleUpdate .null (.str "X")) sampleContext).run.posts,
      getProp r.data "record_action" = .ok (.str "INSERT") ∧
        getProp r.data "record_id" = .ok (.str "X") :=
  ⟨by rw [sample_update_run]; simp,
   RecordUpdate_insert failingRuntime (sampleUpdate .null (.str "X")) sampleContext (.str "X")
     (sample_recordId_before .null (.str "X")) (sample_recordId_after .null (.str "X"))⟩

/-- C5, as stated, fails.  When the identifier of record_after is absent as
undefined rather than null, the test ra_id === null is false: with
record_before carrying identifier Y the one request posted has record_action
UPDATE, not DELETE, and record_id undefined, not Y. -/
theorem RecordUpdate_delete_counterexample :
    (RecordUpdate failingRuntime (sampleUpdate (.str "Y") .undefined) sampleContext).run.posts =
        [sampleUpdateRequest "UPDATE" .undefined] ∧
      getProp (sampleUpdateRequest "UPDATE" .undefined).data "record_action" ≠
        .ok (.str "DELETE") ∧
      getProp (sampleUpdateRequest "UPDATE" .undefined).data "record_id" ≠
        .ok (.str "Y") := by
  refine ⟨?_, ?_, ?_⟩
  · rw [sample_update_run]; rfl
  · simp [sampleUpdateRequest, getProp, List.lookup]
  · simp [sampleUpdateRequest, getProp, List.lookup]

/-- C5, amended: when get("_id") of record_before resolves to a value Y other
than null and the identifier of record_after is null (get("_id") resolves to
null), every request RecordUpdate posts has record_action DELETE and
record_id Y. -/
theorem RecordUpdate_delete (rt : Runtime) (properties context Y : JsVal)
    (hY : Y ≠ .null)
    (hb : recordId properties "record_before" = .ok Y)
    (ha : recordId properties "record_after" = .ok .null) :
    ∀ r ∈ (RecordUpdate rt properties context).run.posts,
      getProp r.data "record_action" = .ok (.str "DELETE") ∧
        getProp r.data "record_id" = .ok Y := by
  intro r hr
  have h := RecordUpdate_posted_fields rt properties context Y .null hb ha r hr
  rw [classify_null_after Y hY] at h
  exact h

theorem RecordUpdate_delete_witness :
    (RecordUpdate failingRuntime (sampleUpdate (.str "Y") .null) sampleContext).run.posts ≠ [] ∧
    ∀ r ∈ (RecordUpdate failingRuntime (sampleUpdate (.str "Y") .null) sampleContext).run.posts,
      getProp r.data "record_action" = .ok (.str "DELETE") ∧
        getProp r.data "record_id" = .ok (.str "Y") :=
  ⟨by rw [sample_update_run]; simp,
   RecordUpdate_delete failingRuntime (sampleUpdate (.str "Y") .null) sampleContext (.str "Y")
     (by simp) (sample_recordId_before (.str "Y") .null) (sample_recordId_after (.str "Y") .null)⟩

/-- C6: when record_before has an identifier Y and record_after has identifier
Z (neither null, equal or not), every request RecordUpdate posts has
record_action UPDATE and record_id Z. -/
theorem RecordUpdate_update (rt : Runtime) (properties context Y Z : JsVal)
    (hY : Y ≠ .null) (hZ : Z ≠ .null)
    (hb : recordId properties "record_before" = .ok Y)
    (ha : recordId properties "record_after" = .ok Z) :
    ∀ r ∈ (RecordUpdate rt properties context).run.posts,
      getProp r.data "record_action" = .ok (.str "UPDATE") ∧
        getProp r.data "record_id" = .ok Z := by
  intro r hr
  have h := RecordUpdate_posted_fields rt properties context Y Z hb ha r hr
  rw [classify_both Y Z hY hZ] at h
  exact h

theorem RecordUpdate_update_witness :
    (RecordUpdate failingRuntime (sampleUpdate (.str "Y") (.str "Z")) sampleContext).run.posts
        ≠ [] ∧
    ∀ r ∈ (RecordUpdate failingRuntime (sampleUpdate (.str "Y") (.str "Z"))
        sampleContext).run.posts,
      getProp r.data "record_action" = .ok (.str "UPDATE") ∧
        getProp r.data "record_id" = .ok (.str "Z") :=
  ⟨by rw [sample_update_run]; simp,
   RecordUpdate_update failingRuntime (sampleUpdate (.str "Y") (.str "Z")) sampleContext
     (.str "Y") (.str "Z") (by simp) (by simp)
     (sample_recordId_before (.str "Y") (.str "Z")) (sample_recordId_after (.str "Y") (.str "Z"))⟩

/-! ## Settling the promise of RecordUpdate (C7, C8, C1) -/

/-- C7: whenever the POST issued by RecordUpdate fails (the awaited axios.post
throws, for any reason e), the handler resolves with exactly the object
needs_sync: false, whatever the inputs and the classified action. -/
theorem RecordUpdate_post_fails (rt : Runtime) (properties context : JsVal)
    (r : Request) (e : JsVal)
    (hr : r ∈ (RecordUpdate rt properties context).run.posts)
    (hfail : rt.post r = .error e) :
    (RecordUpdate rt properties context).run.outcome =
      .ok (.obj [("needs_sync", .bool false)]) := by
  obtain ⟨_, _, _, _, _, _, _, _, _, hout⟩ := RecordUpdate_posted rt properties context r hr
  rw [hout, hfail]
  rfl

theorem RecordUpdate_post_fails_witness :
    sampleUpdateRequest "UPDATE" (.str "Z") ∈
        (RecordUpdate failingRuntime (sampleUpdate (.str "Y") (.str "Z"))
          sampleContext).run.posts ∧
      failingRuntime.post (sampleUpdateRequest "UPDATE" (.str "Z")) =
        .error (.str "ECONNREFUSED") ∧
      (RecordUpdate failingRuntime (sampleUpdate (.str "Y") (.str "Z"))
          sampleContext).run.outcome = .ok (.obj [("needs_sync", .bool false)]) :=
  have hr : sampleUpdateRequest "UPDATE" (.str "Z") ∈
      (RecordUpdate failingRuntime (sampleUpdate (.str "Y") (.str "Z"))
        sampleContext).run.posts := by
    rw [sample_update_run]
    exact List.mem_singleton.mpr rfl
  ⟨hr, rfl,
   RecordUpdate_post_fails failingRuntime (sampleUpdate (.str "Y") (.str "Z")) sampleContext
     (sampleUpdateRequest "UPDATE" (.str "Z")) (.str "ECONNREFUSED") hr rfl⟩

/-- C8: whenever the POST issued by RecordUpdate succeeds with a response whose
data.needs_full_sync reads as b, the handler resolves with the object whose
single field needs_sync is b. -/
theorem RecordUpdate_post_succeeds (rt : Runtime) (properties context : JsVal)
    (r : Request) (resp b : JsVal)
    (hr : r ∈ (RecordUpdate rt properties context).run.posts)
    (hok : rt.post r = .ok resp)
    (hfield : getPath resp ["data", "needs_full_sync"] = .ok b) :
    (RecordUpdate rt properties context).run.outcome = .ok (.obj [("needs_sync", b)]) := by
  obtain ⟨_, _, _, _, _, _, _, _, _, hout⟩ := RecordUpdate_posted rt properties context r hr
  rw [hout, hok]
  simp [settleUpdate, hfield]

theorem RecordUpdate_post_succeeds_witness :
    sampleUpdateRequest "INSERT" (.str "X") ∈
        (RecordUpdate (respondingRuntime (.obj [("needs_full_sync", .bool true)]))
          (sampleUpdate .null (.str "X")) sampleContext).run.posts ∧
      (RecordUpdate (respondingRuntime (.obj [("needs_full_sync", .bool true)]))
          (sampleUpdate .null (.str "X")) sampleContext).run.outcome =
        .ok (.obj [("needs_sync", .bool true)]) :=
  have hr : sampleUpdateRequest "INSERT" (.str "X") ∈
      (RecordUpdate (respondingRuntime (.obj [("needs_full_sync", .bool true)]))
        (sampleUpdate .null (.str "X")) sampleContext).run.posts := by
    rw [sample_update_run]
    exact List.mem_singleton.mpr rfl
  ⟨hr,
   RecordUpdate_post_succeeds (respondingRuntime (.obj [("needs_full_sync", .bool true)]))
     (sampleUpdate .null (.str "X")) sampleContext
     (sampleUpdateRequest "INSERT" (.str "X"))
     (.obj [("status", .num "200"), ("data", .obj [("needs_full_sync", .bool true)])])
     (.bool true) hr rfl (by simp [getPath, getProp, List.lookup])⟩

/-- A value that has one readable property has every property readable. -/
theorem getProp_total (v w : JsVal) (name other : String) (h : getProp v name = .ok w) :
    ∃ x, getProp v other = .ok x := by
  cases v <;> simp [getProp] at h ⊢

/-- C1, as stated, fails.  With a healthy endpoint the handler rejects with a
TypeError when record_before is null and when record_after is null; and on
well-formed inputs a response body without needs_full_sync makes it resolve
with needs_sync undefined, which is not a boolean. -/
theorem RecordUpdate_never_rejects_counterexample :
    (RecordUpdate (respondingRuntime (.obj [("needs_full_sync", .bool true)]))
        (.obj [("app_type", .str "foo"), ("record_before", .null),
               ("record_after", sampleRecord "1.3" (.str "X"))])
        sampleContext).run.outcome = .error .typeError ∧
    (RecordUpdate (respondingRuntime (.obj [("needs_full_sync", .bool true)]))
        (.obj [("app_type", .str "foo"), ("record_before", sampleRecord "1.2" (.str "Y")),
               ("record_after", .null)])
        sampleContext).run.outcome = .error .typeError ∧
    (RecordUpdate (respondingRuntime (.obj []))
        (sampleUpdate (.str "Y") (.str "Z")) sampleContext).run.outcome =
      .ok (.obj [("needs_sync", .undefined)]) ∧
    (∀ b : Bool, JsVal.undefined ≠ .bool b) := by
  refine ⟨?_, ?_, ?_, ?_⟩
  · rw [RecordUpdate_run]
    simp [getPath, getProp, List.lookup]
  · rw [RecordUpdate_run]
    simp [getPath, getProp, List.lookup, recordId, callMethod, sampleRecord]
  · rw [sample_update_run]
    simp [respondingRuntime, settleUpdate, getPath, getProp, List.lookup]
  · intro b h
    cases h

/-- C1, amended: whenever the reads made before the try block succeed (the app
version under record_before, both awaited identifiers, the API key under
context.keys), then for every behaviour of the endpoint the handler resolves
to an object whose single field is needs_sync; that field is boolean as soon
as every successful response carries a boolean data.needs_full_sync. -/
theorem RecordUpdate_resolves (rt : Runtime) (properties context : JsVal)
    (app_version rb_id ra_id azureKey : JsVal)
    (hv : getPath properties ["record_before", "_call_metadata", "app_version"] =
      .ok app_version)
    (hb : recordId properties "record_before" = .ok rb_id)
    (ha : recordId properties "record_after" = .ok ra_id)
    (hk : getPath context ["keys", "Azure Key"] = .ok azureKey) :
    ∃ v, (RecordUpdate rt properties context).run.outcome = .ok (.obj [("needs_sync", v)]) ∧
      ((∀ r resp w, rt.post r = .ok resp →
          getPath resp ["data", "needs_full_sync"] = .ok w → ∃ b, w = .bool b) →
        ∃ b, v = .bool b) := by
  have hty : ∃ ty, getProp properties "app_type" = .ok ty := by
    cases hp : getProp properties "record_before" with
    | error e => simp [recordId, hp] at hb
    | ok rec => exact getProp_total properties rec "record_before" "app_type" hp
  obtain ⟨ty, hty⟩ := hty
  rw [RecordUpdate_run]
  simp only [hv, hb, ha, hk, hty, updateTry]
  cases h6 : getPath context ["keys", "Record Update Function URL"] with
  | error e => exact ⟨.bool false, rfl, fun _ => ⟨false, rfl⟩⟩
  | ok target =>
    dsimp only
    cases h7 : toStr rt target with
    | error e => exact ⟨.bool false, rfl, fun _ => ⟨false, rfl⟩⟩
    | ok url =>
      dsimp only
      refine ⟨_, rfl, fun hbool => ?_⟩
      cases h8 : rt.post (updateRequest url app_version ty rb_id ra_id azureKey) with
      | error e => exact ⟨false, rfl⟩
      | ok resp =>
        cases h9 : getPath resp ["data", "needs_full_sync"] with
        | error e => exact ⟨false, by simp [settleUpdate, h9]⟩
        | ok w =>
          obtain ⟨b, hw⟩ := hbool _ resp w h8 h9
          exact ⟨b, by simp [settleUpdate, h9, hw]⟩

theorem RecordUpdate_resolves_witness :
    ∃ v, (RecordUpdate (respondingRuntime (.obj [("needs_full_sync", .bool true)]))
        (sampleUpdate (.str "Y") .null) sampleContext).run.outcome =
          .ok (.obj [("needs_sync", v)]) ∧
      ((∀ r resp w,
          (respondingRuntime (.obj [("needs_full_sync", .bool true)])).post r = .ok resp →
          getPath resp ["data", "needs_full_sync"] = .ok w → ∃ b, w = .bool b) →
        ∃ b, v = .bool b) :=
  RecordUpdate_resolves (respondingRuntime (.obj [("needs_full_sync", .bool true)]))
    (sampleUpdate (.str "Y") .null) sampleContext
    (.str "1.2") (.str "Y") .null (.str "secret")
    (by simp [sampleUpdate, sampleRecord, getPath, getProp, List.lookup])
    (sample_recordId_before (.str "Y") .null) (sample_recordId_after (.str "Y") .null)
    (by simp [sampleContext, getPath, getProp, List.lookup])

/-! ## FullSync (C2, C9) -/

/-- C2, as stated, fails.  With a healthy endpoint the handler rejects with a
TypeError when properties.one_record is missing, when one_record has no
_call_metadata, and when context.keys is missing. -/
theorem FullSync_never_rejects_counterexample :
    (FullSync (respondingRuntime (.obj [])) (.obj [("app_type", .str "foo")])
        sampleContext).run.outcome = .error .typeError ∧
    (FullSync (respondingRuntime (.obj []))
        (.obj [("app_type", .str "foo"), ("one_record", .obj [])])
        sampleContext).run.outcome = .error .typeError ∧
    (FullSync (respondingRuntime (.obj [])) sampleSync (.obj [])).run.outcome =
      .error .typeError := by
  refine ⟨?_, ?_, ?_⟩
  · rw [FullSync_run]
    simp [getPath, getProp, List.lookup]
  · rw [FullSync_run]
    simp [getPath, getProp, List.lookup]
  · rw [FullSync_run]
    simp [sampleSync, getPath, getProp, List.lookup]

/-- C2, amended: whenever the reads made before the try block succeed (the app
version under properties.one_record._call_metadata and the API key under
context.keys), then for every behaviour of the endpoint the handler resolves,
with undefined, and never rejects. -/
theorem FullSync_resolves (rt : Runtime) (properties context : JsVal)
    (app_version azureKey : JsVal)
    (hv : getPath properties ["one_record", "_call_metadata", "app_version"] =
      .ok app_version)
    (hk : getPath context ["keys", "Azure Key"] = .ok azureKey) :
    (FullSync rt properties context).run.outcome = .ok .undefined := by
  have hty : ∃ ty, getProp properties "app_type" = .ok ty := by
    cases hp : getProp properties "one_record" with
    | error e => simp [getPath, hp] at hv
    | ok rec => exact getProp_total properties rec "one_record" "app_type" hp
  obtain ⟨ty, hty⟩ := hty
  rw [FullSync_run]
  simp only [hv, hk, hty]
  cases h4 : getPath context ["keys", "Full Table Sync URL"] with
  | error e => rfl
  | ok target =>
    dsimp only
    cases h5 : toStr rt target with
    | error e => rfl
    | ok url => rfl

theorem FullSync_resolves_witness :
    (FullSync failingRuntime sampleSync sampleContext).run.outcome = .ok .undefined :=
  FullSync_resolves failingRuntime sampleSync sampleContext (.str "1.2") (.str "secret")
    (by simp [sampleSync, getPath, getProp, List.lookup])
    (by simp [sampleContext, getPath, getProp, List.lookup])

/-- C9: on a well-formed invocation (app version, app type and API key
readable, the configured URL a string u) FullSync issues exactly one POST,
whatever the endpoint does: to u, with config holding the single header
x-functions-key set to context.keys[Azure Key], and with the two-field body
app_version, app_type. -/
theorem FullSync_posts_once (rt : Runtime) (properties context : JsVal)
    (app_version app_type azureKey : JsVal) (u : String)
    (hv : getPath properties ["one_record", "_call_metadata", "app_version"] =
      .ok app_version)
    (hty : getProp properties "app_type" = .ok app_type)
    (hk : getPath context ["keys", "Azure Key"] = .ok azureKey)
    (hu : getPath context ["keys", "Full Table Sync URL"] = .ok (.str u)) :
    (FullSync rt properties context).run.posts =
      [⟨u, .obj [("app_version", app_version), ("app_type", app_type)],
        .obj [("headers", .obj [("x-functions-key", azureKey)])]⟩] := by
  rw [FullSync_run]
  simp only [hv, hty, hk, hu, toStr]

theorem FullSync_posts_once_witness :
    (FullSync failingRuntime sampleSync sampleContext).run.posts =
      [⟨"https://f.example/full",
        .obj [("app_version", .str "1.2"), ("app_type", .str "foo")],
        .obj [("headers", .obj [("x-functions-key", .str "secret")])]⟩] :=
  FullSync_posts_once failingRuntime sampleSync sampleContext
    (.str "1.2") (.str "foo") (.str "secret") "https://f.example/full"
    (by simp [sampleSync, getPath, getProp, List.lookup])
    (by simp [sampleSync, getProp, List.lookup])
    (by simp [sampleContext, getPath, getProp, List.lookup])
    (by simp [sampleContext, getPath, getProp, List.lookup])

/-! ## RecordUpdate request construction (C10) -/

theorem classify_action (rb_id ra_id : JsVal) :
    (classify rb_id ra_id).1 = "INSERT" ∨ (classify rb_id ra_id).1 = "DELETE" ∨
      (classify rb_id ra_id).1 = "UPDATE" := by
  unfold classify
  split
  · exact Or.inl rfl
  · split
    · exact Or.inr (Or.inl rfl)
    · exact Or.inr (Or.inr rfl)

/-- C10: on a well-formed invocation (app version under record_before, both
awaited identifiers, app type and API key readable, the configured URL a
string u) RecordUpdate issues exactly one POST, whatever the endpoint does: to
u, with config holding the single header x-functions-key set to
context.keys[Azure Key], and with the four-field body app_version (the one of
record_before, for every action), app_type, record_id, record_action, where
record_action is INSERT, DELETE or UPDATE. -/
theorem RecordUpdate_posts_once (rt : Runtime) (properties context : JsVal)
    (app_version app_type rb_id ra_id azureKey : JsVal) (u : String)
    (hv : getPath properties ["record_before", "_call_metadata", "app_version"] =
      .ok app_version)
    (hb : recordId properties "record_before" = .ok rb_id)
    (ha : recordId properties "record_after" = .ok ra_id)
    (hty : getProp properties "app_type" = .ok app_type)
    (hk : getPath context ["keys", "Azure Key"] = .ok azureKey)
    (hu : getPath context ["keys", "Record Update Function URL"] = .ok (.str u)) :
    (RecordUpdate rt properties context).run.posts =
        [⟨u,
          .obj [("app_version", app_version), ("app_type", app_type),
                ("record_id", (classify rb_id ra_id).2),
                ("record_action", .str (classify rb_id ra_id).1)],
          .obj [("headers", .obj [("x-functions-key", azureKey)])]⟩] ∧
      ((classify rb_id ra_id).1 = "INSERT" ∨ (classify rb_id ra_id).1 = "DELETE" ∨
        (classify rb_id ra_id).1 = "UPDATE") := by
  refine ⟨?_, classify_action rb_id ra_id⟩
  rw [RecordUpdate_run]
  simp only [hv, hb, ha, hty, hk, hu, updateTry, toStr, updateRequest]

theorem RecordUpdate_posts_once_witness :
    (RecordUpdate failingRuntime (sampleUpdate .null (.str "X")) sampleContext).run.posts =
        [⟨"https://f.example/record",
          .obj [("app_version", .str "1.2"), ("app_type", .str "foo"),
                ("record_id", (classify .null (.str "X")).2),
                ("record_action", .str (classify .null (.str "X")).1)],
          .obj [("headers", .obj [("x-functions-key", .str "secret")])]⟩] ∧
      ((classify .null (.str "X")).1 = "INSERT" ∨ (classify .null (.str "X")).1 = "DELETE" ∨
        (classify .null (.str "X")).1 = "UPDATE") :=
  RecordUpdate_posts_once failingRuntime (sampleUpdate .null (.str "X")) sampleContext
    (.str "1.2") (.str "foo") .null (.str "X") (.str "secret") "https://f.example/record"
    (by simp [sampleUpdate, sampleRecord, getPath, getProp, List.lookup])
    (sample_recordId_before .null (.str "X")) (sample_recordId_after .null (.str "X"))
    (by simp [sampleUpdate, getProp, List.lookup])
    (by simp [sampleContext, getPath, getProp, List.lookup])
    (by simp [sampleContext, getPath, getProp, List.lookup])

end BubblePlugin
